import Mathlib

/-!
Verification development for the cloud-PC management backend: shallow
embedding of the cache strategy table, the cache service, and the
WebSocket connection registry, followed by theorems settling the
frozen claims about them.

Conventions of the embedding:
- JavaScript `Map` and plain-object dictionaries become association
  lists (`List (key × value)`); `Map.set` replaces in place or appends,
  matching JS insertion-order semantics.
- JS `Set` becomes a duplicate-free `List Nat` of socket identifiers,
  with insertion-order `add`/`delete`.
- The asynchronous Redis client is modelled as a record of fallible
  operations (`Except Unit`): a thrown/rejected store call is `.error ()`.
- Wall-clock reads (`new Date()`, `process.uptime()`) are threaded as
  explicit parameters (`now : Nat`, `nowStr : String`, `up : Nat`).
- `JSON.stringify` on cached payloads is an explicit parameter
  `stringify : V → String` over an opaque payload type `V`; the store is
  modelled as holding the payload itself (stringify/parse round-trip).
-/

/-- Association-list lookup, modelling JS `Map.get` / object indexing. -/
def alookup {β : Type} (k : String) : List (String × β) → Option β
  | [] => none
  | (k', v) :: rest => if k' = k then some v else alookup k rest

/-- Association-list update, modelling JS `Map.set`: replaces the value in
place when the key is present, otherwise appends (insertion order). -/
def aset {β : Type} (k : String) (v : β) : List (String × β) → List (String × β)
  | [] => [(k, v)]
  | (k', v') :: rest => if k' = k then (k, v) :: rest else (k', v') :: aset k v rest

/-- Association-list removal, modelling JS `Map.delete`. -/
def aerase {β : Type} (k : String) : List (String × β) → List (String × β)
  | [] => []
  | (k', v') :: rest => if k' = k then aerase k rest else (k', v') :: aerase k rest

/-- Socket-map lookup, modelling `Map.get` keyed by the socket object. -/
def wlookup {β : Type} (k : Nat) : List (Nat × β) → Option β
  | [] => none
  | (k', v) :: rest => if k' = k then some v else wlookup k rest

/-- Socket-map update, modelling `Map.set` keyed by the socket object. -/
def wset {β : Type} (k : Nat) (v : β) : List (Nat × β) → List (Nat × β)
  | [] => [(k, v)]
  | (k', v') :: rest => if k' = k then (k, v) :: rest else (k', v') :: wset k v rest

/-- Socket-map removal, modelling `Map.delete` keyed by the socket object. -/
def werase {β : Type} (k : Nat) : List (Nat × β) → List (Nat × β)
  | [] => []
  | (k', v') :: rest => if k' = k then werase k rest else (k', v') :: werase k rest

/-- One cache policy: base time-to-live in seconds and the key prefix
(field `pfx` renders the source's `prefix` field). -/
structure Strategy where
  ttl : Nat
  pfx : String
deriving DecidableEq, Repr

/-- `CacheStrategy.getStrategy`: `this.strategies[type] || this.strategies.api`. -/
def getStrategy (ty : String) : Strategy :=
  if ty = "cloudpc" then ⟨3600, "cloudpc"⟩
  else if ty = "session" then ⟨86400, "session"⟩
  else if ty = "user" then ⟨7200, "user"⟩
  else if ty = "api" then ⟨600, "api"⟩
  else if ty = "stats" then ⟨1800, "stats"⟩
  else if ty = "config" then ⟨3600, "config"⟩
  else if ty = "realtime" then ⟨300, "realtime"⟩
  else if ty = "logs" then ⟨600, "logs"⟩
  else ⟨600, "api"⟩

/-- `CacheStrategy.generateKey(type, ...args)`:
`prefix + (args.length > 0 ? ":" + args.join(":") : "")`. -/
def generateKey (ty : String) (args : List String) : String :=
  (getStrategy ty).pfx ++ (if args.length > 0 then ":" ++ String.intercalate ":" args else "")

/-- `CacheStrategy.getTTL`. -/
def getTTL (ty : String) : Nat :=
  (getStrategy ty).ttl

/-- `CacheStrategy.getAdaptiveTTL(type, data)`; `stringify` stands for
`JSON.stringify` and `Math.floor(x * 0.5)` / `Math.floor(x * 1.5)` become
exact natural division (the only reachable base, 600, is even). -/
def getAdaptiveTTL {V : Type} (stringify : V → String) (ty : String) (data : V) : Nat :=
  let baseTTL := getTTL ty
  if ty = "api" then
    let dataSize := (stringify data).length
    if dataSize > 10000 then baseTTL / 2
    else if dataSize < 1000 then baseTTL * 3 / 2
    else baseTTL
  else baseTTL

/-- The `data` argument of `getInvalidationPatterns`; in the source a JS
object whose `userId` / `cloudpcId` fields may be absent. An absent field
joins as the empty string (`[undefined].join(":") === ""`), so both fields
are plain strings here and callers pass `""` for an absent field. -/
structure InvData where
  userId : String
  cloudpcId : String
deriving DecidableEq, Repr

/-- `CacheStrategy.getInvalidationPatterns(operation, data)`. -/
def getInvalidationPatterns (operation : String) (data : InvData) : List String :=
  if operation = "userUpdated" then
    [generateKey "user" [data.userId], generateKey "session" [data.userId]]
  else if operation = "cloudpcChanged" then
    [generateKey "cloudpc" [], generateKey "cloudpc" [data.cloudpcId], generateKey "stats" []]
  else if operation = "configUpdated" then
    [generateKey "config" []]
  else if operation = "userLogin" then
    [generateKey "session" [data.userId]]
  else if operation = "userLogout" then
    [generateKey "session" [data.userId]]
  else
    [generateKey operation []]

/-- The cache service's in-process counters. -/
structure Metrics where
  hits : Nat
  misses : Nat
  sets : Nat
  deletes : Nat
  errors : Nat
deriving DecidableEq, Repr

def Metrics.incHits (m : Metrics) : Metrics := { m with hits := m.hits + 1 }

def Metrics.incMisses (m : Metrics) : Metrics := { m with misses := m.misses + 1 }

def Metrics.incSets (m : Metrics) : Metrics := { m with sets := m.sets + 1 }

def Metrics.incDeletes (m : Metrics) : Metrics := { m with deletes := m.deletes + 1 }

def Metrics.incErrors (m : Metrics) : Metrics := { m with errors := m.errors + 1 }

def initMetrics : Metrics := ⟨0, 0, 0, 0, 0⟩

/-- The underlying Redis manager, as the cache service sees it: four
fallible, state-threading operations over store state `σ` holding
payloads of type `V`. `.error ()` models a rejected promise (a thrown
awaited call); an erroring call leaves no observable state to thread. -/
structure StoreOps (V σ : Type) where
  sget : String → σ → Except Unit (Option V × σ)
  sset : String → V → Nat → σ → Except Unit (Bool × σ)
  sdel : String → σ → Except Unit (Nat × σ)
  sdelPattern : String → σ → Except Unit (Nat × σ)

/-- JS `x || d` where `x` is `null` or a number: `0` is falsy. -/
def jsOrNat (x : Option Nat) (d : Nat) : Nat :=
  match x with
  | some n => if n = 0 then d else n
  | none => d

/-- `CacheService.get(type, key)`: returns the value and the updated
metrics and store state; `null`-on-miss and `null`-on-error, with the
corresponding counter bumped. -/
def CacheService.get {V σ : Type} (ops : StoreOps V σ) (m : Metrics) (ty key : String)
    (s : σ) : Option V × Metrics × σ :=
  let cacheKey := generateKey ty [key]
  match ops.sget cacheKey s with
  | .error _ => (none, m.incErrors, s)
  | .ok (some v, s') => (some v, m.incHits, s')
  | .ok (none, s') => (none, m.incMisses, s')

/-- `CacheService.set(type, key, data, customTTL = null)`:
`ttl = customTTL || strategy.getAdaptiveTTL(type, data)`. -/
def CacheService.set {V σ : Type} (ops : StoreOps V σ) (stringify : V → String)
    (m : Metrics) (ty key : String) (data : V) (customTTL : Option Nat)
    (s : σ) : Bool × Metrics × σ :=
  let cacheKey := generateKey ty [key]
  let ttl := jsOrNat customTTL (getAdaptiveTTL stringify ty data)
  match ops.sset cacheKey data ttl s with
  | .error _ => (false, m.incErrors, s)
  | .ok (success, s') => (success, if success then m.incSets else m, s')

/-- Result of `CacheService.delete`: a count on the normal path, the JS
literal `false` on the error path. -/
inductive DelResult where
  | count (n : Nat)
  | failed
deriving DecidableEq, Repr

/-- `CacheService.delete(type, key)`. -/
def CacheService.delete {V σ : Type} (ops : StoreOps V σ) (m : Metrics) (ty key : String)
    (s : σ) : DelResult × Metrics × σ :=
  let cacheKey := generateKey ty [key]
  match ops.sdel cacheKey s with
  | .error _ => (.failed, m.incErrors, s)
  | .ok (result, s') => (.count result, if result > 0 then m.incDeletes else m, s')

/-- `pattern.includes("*")`: whether the single character `*` occurs. -/
def hasStar (s : String) : Bool :=
  s.data.any (fun c => c == '*')

/-- The `for (const pattern of patterns)` loop body of
`CacheService.invalidate`: wildcard patterns go through `delPattern`,
exact keys through `del`; the first store error aborts the loop (the
surrounding `try` catches it), carrying the store state reached so far. -/
def invalidateLoop {V σ : Type} (ops : StoreOps V σ) :
    List String → Nat → σ → Except σ (Nat × σ)
  | [], acc, s => .ok (acc, s)
  | p :: rest, acc, s =>
    if hasStar p then
      match ops.sdelPattern p s with
      | .error _ => .error s
      | .ok (deleted, s') => invalidateLoop ops rest (acc + deleted) s'
    else
      match ops.sdel p s with
      | .error _ => .error s
      | .ok (result, s') => invalidateLoop ops rest (acc + result) s'

/-- `CacheService.invalidate(operation, data)`: resolves patterns, deletes
each, sums the counts; any error is caught, bumps `errors` and yields `0`. -/
def CacheService.invalidate {V σ : Type} (ops : StoreOps V σ) (m : Metrics)
    (operation : String) (data : InvData) (s : σ) : Nat × Metrics × σ :=
  let patterns := getInvalidationPatterns operation data
  match invalidateLoop ops patterns 0 s with
  | .ok (total, s') => (total, m, s')
  | .error s' => (0, m.incErrors, s')

/-- Redis store model: key, payload, and the expiry that `setex` was given
(`none` when plain `set` without expiry was used). -/
abbrev RStore (V : Type) : Type := List (String × V × Option Nat)

/-- Redis KEYS glob matching, modelled from the external Redis server's
matcher restricted to the `*` wildcard (`*` matches any sequence); every
other character matches itself literally (the repository only ever
produces `*`-free patterns or patterns whose metacharacters come verbatim
from ids). -/
def globMatch : List Char → List Char → Bool
  | [], s => s.isEmpty
  | '*' :: ps, s => (List.range (s.length + 1)).any (fun i => globMatch ps (s.drop i))
  | c :: ps, s =>
    match s with
    | [] => false
    | c' :: s' => c == c' && globMatch ps s'

/-- Erase one key from the store model (`client.del` of an exact key). -/
def eraseKey {V : Type} (k : String) (s : RStore V) : RStore V :=
  s.filter (fun e => !(e.1 == k))

/-- Honest (never-failing) instantiation of the store interface with
Redis's key-value semantics: `RedisManager.set` (serialize then `setex`
when `ttl > 0`, plain `set` otherwise), `RedisManager.get`
(`null` when absent), `RedisManager.del` (count of keys removed),
`RedisManager.delPattern` (`keys(pattern)` then bulk `del`). -/
def redisOps (V : Type) : StoreOps V (RStore V) where
  sget := fun k s => .ok ((alookup k s).map (fun e => e.1), s)
  sset := fun k v ttl s => .ok (true, aset k (v, if ttl > 0 then some ttl else none) s)
  sdel := fun k s => .ok ((if (alookup k s).isSome then 1 else 0), eraseKey k s)
  sdelPattern := fun p s =>
    let ks := (s.map (fun e => e.1)).filter (fun k => globMatch p.data k.data)
    .ok (ks.length, s.filter (fun e => !(globMatch p.data e.1.data)))

/-- A store whose every call raises, to exercise the error paths. -/
def failOps : StoreOps Nat Unit where
  sget := fun _ _ => .error ()
  sset := fun _ _ _ _ => .error ()
  sdel := fun _ _ => .error ()
  sdelPattern := fun _ _ => .error ()

/-- Serializer used by concrete witnesses: payload `n` serializes to `n`
characters. -/
def repSerialize (n : Nat) : String :=
  String.mk (List.replicate n 'a')

/-- One entry of a terminal session's command history
(`{ command, timestamp, userId }`). -/
structure CmdEntry where
  command : String
  timestamp : Nat
  userId : String
deriving DecidableEq, Repr

/-- A terminal command's result: either a plain string, or one of the two
control objects the source returns (`{ type: "clear" | "exit", message }`). -/
inductive CmdOutput where
  | str (s : String)
  | ctl (tag : String) (msg : String)
  | inherited (descr : String)
deriving DecidableEq, Repr

/-- One entry of a terminal session's output history
(`{ command, output, timestamp }`). -/
structure OutEntry where
  command : String
  output : CmdOutput
  timestamp : Nat
deriving DecidableEq, Repr

/-- A terminal session as created by `initializeTerminalSession`. -/
structure TermSession where
  id : String
  cloudPCId : String
  userId : String
  createdAt : Nat
  isActive : Bool
  commands : List CmdEntry
  output : List OutEntry
  resizeInfo : Option (Nat × Nat)
deriving DecidableEq, Repr

/-- The `connectionInfo` record attached to a socket on handshake
(`userAgent`, a log-only field, is omitted). -/
structure ConnInfo where
  userId : String
  cloudPCId : String
  sessionId : String
  connectedAt : Nat
  isAlive : Bool
deriving DecidableEq, Repr

/-- The three maps owned by `CloudPCWebSocketService`: the
connection-by-socket map, the cloudPC-id fan-out index, and the terminal
session map. -/
structure WSState where
  connections : List (Nat × ConnInfo)
  cloudPCConnections : List (String × List Nat)
  terminalSessions : List (String × TermSession)
deriving DecidableEq, Repr

/-- The server-to-client message envelopes, by their `type` tag (payload
fields retained where a claim needs them). -/
inductive Reply where
  | connectionEstablished (sessionId cloudPCId : String)
  | terminalWelcome (sessionId : String)
  | terminalOutput (command : String) (output : CmdOutput)
  | terminalError
  | terminalResized (cols rows : Nat)
  | clipboardSynced
  | mouseEventAck
  | keyboardEventAck
  | pong
  | errorReply
deriving DecidableEq, Repr

/-- `getHelpMessage()` (the template literal, after its `.trim()`). -/
def getHelpMessage : String :=
  "云电脑Web终端帮助\n\n可用命令：\n  基本命令：\n    help          - 显示此帮助信息\n    clear         - 清屏\n    whoami        - 显示当前用户\n    pwd           - 显示当前目录\n    ls/dir        - 列出目录内容\n    cat           - 显示文件内容\n    echo          - 显示文本\n    mkdir         - 创建目录\n    rm            - 删除文件\n    cp            - 复制文件\n    mv            - 移动文件\n    chmod         - 修改权限\n\n  系统信息：\n    ps            - 显示进程\n    top           - 显示系统信息\n    uname         - 显示系统信息\n    hostname      - 显示主机名\n    uptime        - 显示运行时间\n    date          - 显示日期时间\n\n  网络：\n    ipconfig      - 显示网络配置\n    ifconfig      - 显示网络接口\n    netstat       - 显示网络连接\n\n  磁盘：\n    df            - 显示磁盘使用情况\n    free          - 显示内存使用情况\n\n  其他：\n    history       - 显示命令历史\n    exit/logout   - 退出终端\n\n联系技术支持获取更多帮助。"

/-- `listDirectory()`. -/
def listDirectory : String :=
  "total 16\ndrwxr-xr-x 2 cloudpc cloudpc 4096 Jan 15 10:00 Desktop\ndrwxr-xr-xr-x 2 cloudpc cloudpc 4096 Jan 15 10:00 Documents  \ndrwxr-xr-xr-x 2 cloudpc cloudpc 4096 Jan 15 10:00 Downloads\n-rw-r--r-- 1 cloudpc cloudpc 1234 Jan 15 10:00 readme.txt\n-rw-r--r-- 1 cloudpc cloudpc 5678 Jan 15 10:00 config.json"

/-- `listProcesses()`. -/
def listProcesses : String :=
  "  PID TTY          TIME CMD\n    1 ?        00:00:01 systemd\n  1234 ?        00:00:00 cloudpc-service\n  5678 pts/0    00:00:00 bash\n  9012 pts/0    00:00:00 web-terminal"

/-- `showSystemInfo()`. -/
def showSystemInfo : String :=
  "系统负载: 0.15, 0.10, 0.05\nCPU: Intel(R) Xeon(R) Gold 6248R @ 3.00GHz (4 cores)\n内存: 8.0GB total, 4.2GB used, 3.8GB free\n磁盘: 100GB total, 45.2GB used, 54.8GB free\n运行时间: 2 days, 14 hours, 30 minutes"

/-- `showDiskUsage()`. -/
def showDiskUsage : String :=
  "Filesystem     1K-blocks    Used Available Use% Mounted on\n/dev/sda1       104857600 46213120  58644640  45% /\ntmpfs            8388608         0   8388608   0% /dev/shm\n/dev/sdb1       209715200 125829120  83886080  60% /data"

/-- `showMemoryUsage()`. -/
def showMemoryUsage : String :=
  "              total        used        free      shared  buff/cache   available\nMem:        8388608     4404019      987654      123456     2994935     3772159\nSwap:       2097152           0     2097152"

/-- `getUptime()`: `process.uptime()` is the explicit parameter `up`
(whole seconds); `Math.floor` on non-negative values is `Nat` division. -/
def getUptime (up : Nat) : String :=
  let days := up / 86400
  let hours := (up % 86400) / 3600
  let minutes := (up % 3600) / 60
  toString days ++ " days, " ++ toString hours ++ " hours, " ++ toString minutes ++ " minutes"

/-- `getCommandHistory(session)`: last 10 commands, numbered from 1,
joined with newlines; the empty string is falsy so `||` substitutes the
placeholder. -/
def getCommandHistory (sess : TermSession) : String :=
  let recent := sess.commands.drop (sess.commands.length - 10)
  let numbered := ((List.range recent.length).zip recent).map
    (fun e => toString (e.1 + 1) ++ "  " ++ e.2.command)
  let joined := String.intercalate "\n" numbered
  if joined == "" then "没有命令历史" else joined

/-- `readFile(fileName)`: the hardcoded virtual file table. -/
def readFile (fileName : String) : String :=
  if fileName = "readme.txt" then
    "欢迎使用云电脑服务！\n\n这是一个示例云电脑环境。您可以通过Web终端管理文件和运行命令。\n\n如需技术支持，请联系客服。"
  else if fileName = "config.json" then
    "\x7b\n  \"cloudpc\": \x7b\n    \"instance_id\": \"cloudpc_123456789\",\n    \"os\": \"Ubuntu 20.04\",\n    \"cpu\": 4,\n    \"memory\": 8,\n    \"storage\": 100,\n    \"status\": \"running\"\n  \x7d\n\x7d"
  else if fileName = "log.txt" then
    "[2024-01-15 10:00:00] System started\n[2024-01-15 10:05:00] User logged in\n[2024-01-15 10:10:00] Terminal session started"
  else
    "cat: " ++ fileName ++ ": No such file or directory"

/-- JS `String.prototype.trim()`, modelled char-level (kernel-computable):
strip leading and trailing whitespace characters. -/
def jsTrim (s : String) : String :=
  ⟨((s.data.dropWhile Char.isWhitespace).reverse.dropWhile Char.isWhitespace).reverse⟩

/-- JS `String.prototype.toLowerCase()` restricted to ASCII, modelled
char-level (all command and key text is ASCII). -/
def jsToLower (s : String) : String :=
  ⟨s.data.map Char.toLower⟩

/-- Char-list version of `startsWith`. -/
def startsList : List Char → List Char → Bool
  | _, [] => true
  | [], _ :: _ => false
  | c :: s, d :: p => c == d && startsList s p

/-- JS `String.prototype.startsWith(p)`, modelled char-level. -/
def jsStartsWith (s p : String) : Bool :=
  startsList s.data p.data

/-- JS `String.prototype.substring(n)`, modelled as a char-level drop. -/
def jsDrop (s : String) (n : Nat) : String :=
  ⟨s.data.drop n⟩

/-- The `commands` object literal of `executeCommand`, as an ordered
key-value table; `nowStr` is `new Date().toString()` and `up` is
`process.uptime()`, the two clock reads the literal performs. -/
def cmdEntries (nowStr : String) (up : Nat) (sess : TermSession) : List (String × CmdOutput) :=
  [("help", .str getHelpMessage),
   ("clear", .ctl "clear" "清屏"),
   ("whoami", .str "cloudpc"),
   ("pwd", .str "/home/cloudpc"),
   ("ls", .str listDirectory),
   ("dir", .str listDirectory),
   ("ps", .str listProcesses),
   ("top", .str showSystemInfo),
   ("systeminfo", .str showSystemInfo),
   ("ipconfig", .str "Windows IP Configuration"),
   ("ifconfig", .str "Network configuration"),
   ("netstat", .str "Active connections"),
   ("date", .str nowStr),
   ("uname", .str "CloudPC Linux 4.19.0"),
   ("uptime", .str (getUptime up)),
   ("df", .str showDiskUsage),
   ("free", .str showMemoryUsage),
   ("hostname", .str "cloudpc-instance"),
   ("history", .str (getCommandHistory sess)),
   ("exit", .ctl "exit" "退出终端会话"),
   ("logout", .ctl "exit" "登出系统")]

/-- JS truthiness of a command-table value: objects are truthy, a string
is truthy iff non-empty (`if (commands[trimmedCommand])`). -/
def isTruthy : CmdOutput → Bool
  | .str s => !(s == "")
  | .ctl _ _ => true
  | .inherited _ => true

/-- The command-not-found fallback string of `executeCommand` (note: it
interpolates the original, untrimmed `command`). -/
def notFoundMsg (command : String) : String :=
  "bash: " ++ command ++ ": 命令未找到\n输入 \x27help\x27 查看可用命令。"

/-- Prototype-chain hits of the `commands` object literal: property
access on a JS object literal falls through to `Object.prototype`, whose
own property names are `constructor`, `hasOwnProperty`, `isPrototypeOf`,
`propertyIsEnumerable`, `toLocaleString`, `toString`, `valueOf`,
`__proto__` and the four `__define/__lookup` accessors. Property access
is case-sensitive and the looked-up command has been lowercased, so the
only reachable inherited names are the all-lowercase `constructor`
(yielding `Object.prototype.constructor`, the truthy `Object` function)
and `__proto__` (yielding `Object.prototype` itself, a truthy object);
`CmdOutput.inherited` stands for such a non-string host value. -/
def protoLookup (t : String) : Option CmdOutput :=
  if t = "constructor" then some (.inherited "Object.prototype.constructor")
  else if t = "__proto__" then some (.inherited "Object.prototype")
  else none

/-- The full JS property lookup `commands[trimmedCommand]`: own
properties of the object literal first, then the prototype chain. -/
def jsCommandsLookup (nowStr : String) (up : Nat) (sess : TermSession) (t : String) :
    Option CmdOutput :=
  match alookup t (cmdEntries nowStr up sess) with
  | some v => some v
  | none => protoLookup t

/-- `executeCommand(command, session)`: trim + lowercase, the eight
prefix-matched synthetic handlers, then the fixed command table, the
empty-command case, and the not-found fallback. -/
def executeCommand (nowStr : String) (up : Nat) (command : String) (sess : TermSession) :
    CmdOutput :=
  let t := jsToLower (jsTrim command)
  if jsStartsWith t "cat " then .str (readFile (jsTrim (jsDrop t 4)))
  else if jsStartsWith t "echo " then .str (jsTrim (jsDrop t 5))
  else if jsStartsWith t "mkdir " then .str ("目录 \"" ++ jsTrim (jsDrop t 6) ++ "\" 已创建")
  else if jsStartsWith t "rm " then .str ("文件 \"" ++ jsTrim (jsDrop t 3) ++ "\" 已删除")
  else if jsStartsWith t "cp " then .str "文件复制完成"
  else if jsStartsWith t "mv " then .str "文件移动完成"
  else if jsStartsWith t "chmod " then .str "权限修改完成"
  else if jsStartsWith t "sudo " then .str "需要管理员权限"
  else
    match jsCommandsLookup nowStr up sess t with
    | some v => if isTruthy v then v else (if t == "" then .str "" else .str (notFoundMsg command))
    | none => if t == "" then .str "" else .str (notFoundMsg command)

/-- `handleTerminalInput(ws, payload)`: `uid` is `ws.connectionInfo.userId`
(attached at handshake); returns the replies sent and the updated state.
Missing session: one `terminal_error`, no state change. Otherwise: push
the command entry, execute (the session already holds the new command),
push the output entry, then evict the oldest of each history when the
command history exceeds 100 entries. -/
def handleTerminalInput (uid command sessionId : String) (now : Nat) (nowStr : String)
    (up : Nat) (s : WSState) : List Reply × WSState :=
  match alookup sessionId s.terminalSessions with
  | none => ([.terminalError], s)
  | some sess0 =>
    let sess1 := { sess0 with commands := sess0.commands ++ [⟨command, now, uid⟩] }
    let out := executeCommand nowStr up command sess1
    let sess2 := { sess1 with output := sess1.output ++ [⟨command, out, now⟩] }
    let sess3 := if sess2.commands.length > 100 then
        { sess2 with commands := sess2.commands.tail, output := sess2.output.tail }
      else sess2
    ([.terminalOutput command out],
     { s with terminalSessions := aset sessionId sess3 s.terminalSessions })

/-- `handleTerminalResize(ws, payload)`. -/
def handleTerminalResize (cols rows : Nat) (sessionId : String) (s : WSState) :
    List Reply × WSState :=
  match alookup sessionId s.terminalSessions with
  | none => ([], s)
  | some sess =>
    let sess' := { sess with resizeInfo := some (cols, rows) }
    ([.terminalResized cols rows],
     { s with terminalSessions := aset sessionId sess' s.terminalSessions })

/-- An inbound message once JSON-parsed: its `type` tag and the payload
fields the handlers destructure. -/
structure Msg where
  tag : String
  command : String
  sessionId : String
  cols : Nat
  rows : Nat
deriving DecidableEq, Repr

/-- `handleMessage(ws, data)`. `raw = none` models a body that
`JSON.parse` rejects: control reaches the `catch`, which sends exactly one
`error`-type reply; the returned `Bool` records whether any code path
closed the socket (none does). `uid` is `ws.connectionInfo.userId`. -/
def handleMessage (uid : String) (raw : Option Msg) (now : Nat) (nowStr : String)
    (up : Nat) (s : WSState) : List Reply × WSState × Bool :=
  match raw with
  | none => ([.errorReply], s, false)
  | some m =>
    if m.tag = "terminal_input" then
      let (rs, s') := handleTerminalInput uid m.command m.sessionId now nowStr up s
      (rs, s', false)
    else if m.tag = "terminal_resize" then
      let (rs, s') := handleTerminalResize m.cols m.rows m.sessionId s
      (rs, s', false)
    else if m.tag = "clipboard_sync" then ([.clipboardSynced], s, false)
    else if m.tag = "mouse_event" then ([.mouseEventAck], s, false)
    else if m.tag = "keyboard_event" then ([.keyboardEventAck], s, false)
    else if m.tag = "ping" then ([.pong], s, false)
    else ([], s, false)

/-- Fan-out registration: create the set on first use, then `Set.add`. -/
def fanAdd (pc : String) (ws : Nat) (f : List (String × List Nat)) :
    List (String × List Nat) :=
  match alookup pc f with
  | none => aset pc [ws] f
  | some conns => aset pc (if ws ∈ conns then conns else conns ++ [ws]) f

/-- Handshake outcome: an immediate `ws.close(code)` or an established
connection. -/
inductive HSResult where
  | closed (code : Nat)
  | established
deriving DecidableEq, Repr

/-- `initializeTerminalSession(ws, cloudPCId, sessionId)`. -/
def initializeTerminalSession (uid pc sessionId : String) (now : Nat) (s : WSState) :
    WSState × List Reply :=
  let sess : TermSession := ⟨sessionId, pc, uid, now, true, [], [], none⟩
  ({ s with terminalSessions := aset sessionId sess s.terminalSessions },
   [.terminalWelcome sessionId])

/-- `handleConnection(ws, req)`: `token`/`cloudPCId`/`sessionId` are the
URL query parameters (`none` when absent); `freshId` is the id
`generateSessionId()` would mint; `verify` models
`jwt.verify(token, JWT_SECRET)`, `none` meaning the verification throws.
A falsy (`null` or empty) token or cloud-PC id, or a failed verification,
closes with policy code 1008 and touches no index. -/
def handleConnection (verify : String → Option String) (ws : Nat)
    (token cloudPCId sessionIdParam : Option String) (freshId : String) (now : Nat)
    (s : WSState) : HSResult × WSState × List Reply :=
  let sessionId := match sessionIdParam with
    | some sid => if sid == "" then freshId else sid
    | none => freshId
  match token, cloudPCId with
  | some t, some pc =>
    if t == "" || pc == "" then (.closed 1008, s, [])
    else
      match verify t with
      | none => (.closed 1008, s, [])
      | some uid =>
        let info : ConnInfo := ⟨uid, pc, sessionId, now, true⟩
        let s1 : WSState := { s with
          connections := wset ws info s.connections,
          cloudPCConnections := fanAdd pc ws s.cloudPCConnections }
        let (s2, welcome) := initializeTerminalSession uid pc sessionId now s1
        (.established, s2, [.connectionEstablished sessionId pc] ++ welcome)
  | _, _ => (.closed 1008, s, [])

/-- `handleDisconnect(ws)`: no-op on an unknown socket; otherwise removes
the socket from the connection map, prunes it from the fan-out set
(dropping the set when it empties), and marks the terminal session
inactive. -/
def handleDisconnect (ws : Nat) (s : WSState) : WSState :=
  match wlookup ws s.connections with
  | none => s
  | some info =>
    let conns := werase ws s.connections
    let fo := match alookup info.cloudPCId s.cloudPCConnections with
      | none => s.cloudPCConnections
      | some set0 =>
        let set1 := set0.erase ws
        if set1.isEmpty then aerase info.cloudPCId s.cloudPCConnections
        else aset info.cloudPCId set1 s.cloudPCConnections
    let ts := match alookup info.sessionId s.terminalSessions with
      | none => s.terminalSessions
      | some sess => aset info.sessionId { sess with isActive := false } s.terminalSessions
    { connections := conns, cloudPCConnections := fo, terminalSessions := ts }

/-- One firing of the `startHeartbeat` interval: every registered socket
is open in this model, so each connection with a cleared liveness flag is
terminated and deleted from the connection map, and every other one has
its flag cleared (and is pinged). The forced terminations then emit
asynchronous `close` events, delivered to `handleDisconnect` in order
after the synchronous pass — by which time the connection-map entry is
already gone. -/
def startHeartbeatTick (s : WSState) : WSState :=
  let dead := (s.connections.filter (fun e => !e.2.isAlive)).map (fun e => e.1)
  let conns' := s.connections.filterMap (fun e =>
    if e.2.isAlive then some (e.1, { e.2 with isAlive := false }) else none)
  dead.foldl (fun st w => handleDisconnect w st) { s with connections := conns' }

/-- The registry's externally driven events: a handshake, an inbound
message, a socket close, or a heartbeat tick. -/
inductive RegStep where
  | connect (ws : Nat) (token cloudPCId sessionIdParam : Option String)
      (freshId : String) (now : Nat)
  | message (uid : String) (raw : Option Msg) (now : Nat) (nowStr : String) (up : Nat)
  | disconnect (ws : Nat)
  | heartbeat

/-- Apply one registry event to the state. -/
def applyStep (verify : String → Option String) (s : WSState) : RegStep → WSState
  | .connect ws token pc sidp fresh now => (handleConnection verify ws token pc sidp fresh now s).2.1
  | .message uid raw now nowStr up => (handleMessage uid raw now nowStr up s).2.1
  | .disconnect ws => handleDisconnect ws s
  | .heartbeat => startHeartbeatTick s

/-- The empty registry the service constructor builds. -/
def initRegistry : WSState := ⟨[], [], []⟩

/-- Run a sequence of registry events from the empty registry. -/
def runRegistry (verify : String → Option String) (steps : List RegStep) : WSState :=
  steps.foldl (applyStep verify) initRegistry

/-- The fan-out index never maps a cloud-PC id to an empty set. -/
def fanoutNonempty (s : WSState) : Bool :=
  s.cloudPCConnections.all (fun e => !e.2.isEmpty)

/-- A registry holding one established connection (socket 1, cloud-PC
`pc1`, session `s1`) whose liveness flag is already false when the
heartbeat fires. -/
def deadConnState : WSState :=
  { connections := [(1, ⟨"u1", "pc1", "s1", 0, false⟩)],
    cloudPCConnections := [("pc1", [1])],
    terminalSessions := [("s1", ⟨"s1", "pc1", "u1", 0, true, [], [], none⟩)] }

/-- A registry holding one fresh (empty-history) terminal session `s1`. -/
def freshSessionState : WSState :=
  { connections := [], cloudPCConnections := [],
    terminalSessions := [("s1", ⟨"s1", "pc1", "u1", 0, true, [], [], none⟩)] }

/-- 105 sequential `terminal_input` messages (commands "1" .. "105")
handled on session `s1`, message `i` arriving at time `i`. -/
def run105 : WSState :=
  (List.range 105).foldl
    (fun st i =>
      (handleMessage "u1" (some ⟨"terminal_input", toString (i + 1), "s1", 0, 0⟩)
        (i + 1) "T" 0 st).2.1)
    freshSessionState

theorem alookup_aset_self {β : Type} (k : String) (v : β) (l : List (String × β)) :
    alookup k (aset k v l) = some v := by
  induction l with
  | nil => simp [aset, alookup]
  | cons e rest ih =>
    obtain ⟨k', v'⟩ := e
    by_cases h : k' = k
    · simp [aset, alookup, h]
    · simp [aset, alookup, h, ih]

theorem wlookup_wset_self {β : Type} (k : Nat) (v : β) (l : List (Nat × β)) :
    wlookup k (wset k v l) = some v := by
  induction l with
  | nil => simp [wset, wlookup]
  | cons e rest ih =>
    obtain ⟨k', v'⟩ := e
    by_cases h : k' = k
    · simp [wset, wlookup, h]
    · simp [wset, wlookup, h, ih]

theorem getTTL_pos (ty : String) : 0 < getTTL ty := by
  unfold getTTL getStrategy
  split_ifs <;> decide

theorem getAdaptiveTTL_pos {V : Type} (stringify : V → String) (ty : String) (data : V) :
    0 < getAdaptiveTTL stringify ty data := by
  by_cases h1 : ty = "api"
  · subst h1
    simp only [getAdaptiveTTL]
    split_ifs <;> decide
  · simpa [getAdaptiveTTL, h1] using getTTL_pos ty

/-- C3: for category `api`, the adaptive TTL is `floor(600 * 0.5) = 300`
when the serialized payload length exceeds 10000, `floor(600 * 1.5) = 900`
when it is under 1000, and the base 600 otherwise; every other category
returns its base TTL unchanged; in particular a 12000-character payload
yields 300. -/
theorem getAdaptiveTTL_spec {V : Type} (stringify : V → String) (data : V) :
    ((stringify data).length > 10000 → getAdaptiveTTL stringify "api" data = 300)
    ∧ ((stringify data).length < 1000 → getAdaptiveTTL stringify "api" data = 900)
    ∧ (¬ (stringify data).length > 10000 → ¬ (stringify data).length < 1000 →
        getAdaptiveTTL stringify "api" data = 600)
    ∧ (∀ ty : String, ty ≠ "api" → getAdaptiveTTL stringify ty data = getTTL ty)
    ∧ ((stringify data).length = 12000 → getAdaptiveTTL stringify "api" data = 300) := by
  refine ⟨?_, ?_, ?_, ?_, ?_⟩
  · intro h
    simp [getAdaptiveTTL, getTTL, getStrategy, h]
  · intro h
    have h2 : ¬ (stringify data).length > 10000 := by omega
    simp [getAdaptiveTTL, getTTL, getStrategy, h, h2]
  · intro h1 h2
    simp [getAdaptiveTTL, getTTL, getStrategy, h1, h2]
  · intro ty hty
    simp [getAdaptiveTTL, hty, getTTL]
  · intro h
    simp [getAdaptiveTTL, getTTL, getStrategy, h]

theorem repSerialize_length (n : Nat) : (repSerialize n).length = n := by
  simp [repSerialize, String.length]

/-- Witness for C3 at concrete payload sizes 12000, 500 and 5000. -/
theorem getAdaptiveTTL_spec_witness :
    getAdaptiveTTL repSerialize "api" 12000 = 300
    ∧ getAdaptiveTTL repSerialize "api" 500 = 900
    ∧ getAdaptiveTTL repSerialize "api" 5000 = 600
    ∧ getAdaptiveTTL repSerialize "user" 12000 = getTTL "user" := by
  refine ⟨(getAdaptiveTTL_spec repSerialize 12000).1 ?_,
         (getAdaptiveTTL_spec repSerialize 500).2.1 ?_,
         (getAdaptiveTTL_spec repSerialize 5000).2.2.1 ?_ ?_,
         (getAdaptiveTTL_spec repSerialize 12000).2.2.2.1 "user" (by decide)⟩ <;>
    simp [repSerialize_length]

/-- C9: `set` selects the TTL by JS truthiness (`customTTL || adaptive`):
an override of 0 (or a null override) is ignored and the entry is written
with the adaptive TTL; only a non-zero override is written as given. -/
theorem set_ttlOverride_truthiness {V : Type} (stringify : V → String) (m : Metrics)
    (ty key : String) (data : V) (s : RStore V) :
    ((CacheService.set (redisOps V) stringify m ty key data (some 0) s).2.2
        = aset (generateKey ty [key]) (data, some (getAdaptiveTTL stringify ty data)) s)
    ∧ ((CacheService.set (redisOps V) stringify m ty key data none s).2.2
        = aset (generateKey ty [key]) (data, some (getAdaptiveTTL stringify ty data)) s)
    ∧ (∀ n : Nat, n ≠ 0 →
        (CacheService.set (redisOps V) stringify m ty key data (some n) s).2.2
          = aset (generateKey ty [key]) (data, some n) s) := by
  have hpos := getAdaptiveTTL_pos stringify ty data
  refine ⟨?_, ?_, ?_⟩
  · simp [CacheService.set, redisOps, jsOrNat, hpos]
  · simp [CacheService.set, redisOps, jsOrNat, hpos]
  · intro n hn
    have hnpos : 0 < n := Nat.pos_of_ne_zero hn
    simp [CacheService.set, redisOps, jsOrNat, hn, hnpos]

/-- Witness for C9: a 12000-character `api` payload written with override
0 gets the adaptive TTL 300; with override 7 it gets 7. -/
theorem set_ttlOverride_truthiness_witness :
    (CacheService.set (redisOps Nat) repSerialize initMetrics "api" "k" 12000 (some 0)
        ([] : RStore Nat)).2.2 = [("api:k", 12000, some 300)]
    ∧ (CacheService.set (redisOps Nat) repSerialize initMetrics "api" "k" 12000 (some 7)
        ([] : RStore Nat)).2.2 = [("api:k", 12000, some 7)] := by
  constructor
  · refine ((set_ttlOverride_truthiness repSerialize initMetrics "api" "k" 12000 []).1).trans ?_
    have h300 : getAdaptiveTTL repSerialize "api" 12000 = 300 := by
      refine (getAdaptiveTTL_spec repSerialize 12000).1 ?_
      simp [repSerialize_length]
    rw [h300]
    decide
  · refine (((set_ttlOverride_truthiness repSerialize initMetrics "api" "k" 12000 []).2.2 7
      (by decide))).trans ?_
    decide

theorem data_append (a b : String) : (a ++ b).data = a.data ++ b.data := rfl

theorem strLength (s : String) : s.length = s.data.length := rfl

theorem hasStar_append (a b : String) :
    hasStar (a ++ b) = (hasStar a || hasStar b) := by
  simp [hasStar, data_append]

theorem eraseKey_cons {V : Type} (k : String) (e : String × V × Option Nat)
    (rest : RStore V) :
    eraseKey k (e :: rest) = if e.1 = k then eraseKey k rest else e :: eraseKey k rest := by
  by_cases h : e.1 = k <;> simp [eraseKey, List.filter_cons, h]

theorem alookup_eraseKey_self {V : Type} (k : String) (s : RStore V) :
    alookup k (eraseKey k s) = none := by
  induction s with
  | nil => rfl
  | cons e rest ih =>
    obtain ⟨k', v⟩ := e
    by_cases h : k' = k
    · simpa [eraseKey_cons, h] using ih
    · simpa [eraseKey_cons, h, alookup] using ih

theorem alookup_eraseKey_ne {V : Type} (k k2 : String) (s : RStore V) (h : k2 ≠ k) :
    alookup k (eraseKey k2 s) = alookup k s := by
  induction s with
  | nil => rfl
  | cons e rest ih =>
    obtain ⟨k', v⟩ := e
    by_cases h1 : k' = k2
    · subst h1
      simp [eraseKey_cons, alookup, h, ih]
    · by_cases h2 : k' = k <;> simp [eraseKey_cons, alookup, h1, h2, Ne.symm h, ih]

theorem strlen_append (a b : String) : (a ++ b).length = a.length + b.length := by
  show (a.data ++ b.data).length = a.data.length + b.data.length
  exact List.length_append a.data b.data

theorem user_session_key_ne (u : String) : ("user:" ++ u) ≠ ("session:" ++ u) := by
  intro h
  have hl := congrArg String.length h
  rw [strlen_append, strlen_append] at hl
  have h5 : "user:".length = 5 := rfl
  have h8 : "session:".length = 8 := rfl
  omega

theorem patterns_userUpdated (u : String) :
    getInvalidationPatterns "userUpdated" ⟨u, ""⟩ = ["user:" ++ u, "session:" ++ u] := rfl

/-- C2 (amended): for every userId `u` that contains no `*` wildcard
character, `invalidate("userUpdated", {userId: u})` deletes exactly the
two keys `user:u` and `session:u` from the backing store, and a
subsequent `get("user", u)` or `get("session", u)` returns null. -/
theorem invalidate_userUpdated_spec {V : Type} (m m2 m3 : Metrics) (u : String)
    (s : RStore V) (h : hasStar u = false) :
    ((CacheService.invalidate (redisOps V) m "userUpdated" ⟨u, ""⟩ s).2.2
      = eraseKey ("session:" ++ u) (eraseKey ("user:" ++ u) s))
    ∧ (CacheService.get (redisOps V) m2 "user" u
        ((CacheService.invalidate (redisOps V) m "userUpdated" ⟨u, ""⟩ s).2.2)).1 = none
    ∧ (CacheService.get (redisOps V) m3 "session" u
        ((CacheService.invalidate (redisOps V) m "userUpdated" ⟨u, ""⟩ s).2.2)).1 = none := by
  have hkey1 : generateKey "user" [u] = "user:" ++ u := rfl
  have hkey2 : generateKey "session" [u] = "session:" ++ u := rfl
  have hp1 : hasStar ("user:" ++ u) = false := by
    rw [hasStar_append, h]
    decide
  have hp2 : hasStar ("session:" ++ u) = false := by
    rw [hasStar_append, h]
    decide
  have hfinal : (CacheService.invalidate (redisOps V) m "userUpdated" ⟨u, ""⟩ s).2.2
      = eraseKey ("session:" ++ u) (eraseKey ("user:" ++ u) s) := by
    simp [CacheService.invalidate, patterns_userUpdated, invalidateLoop, hp1, hp2,
      hkey1, hkey2, redisOps]
  refine ⟨hfinal, ?_, ?_⟩
  · rw [hfinal]
    simp [CacheService.get, redisOps, hkey1,
      alookup_eraseKey_ne _ _ _ (Ne.symm (user_session_key_ne u)),
      alookup_eraseKey_self]
  · rw [hfinal]
    simp [CacheService.get, redisOps, hkey2, alookup_eraseKey_self]

/-- Witness for the amended C2 at userId "u1" on a three-entry store. -/
theorem invalidate_userUpdated_spec_witness :
    ((CacheService.invalidate (redisOps Nat) initMetrics "userUpdated" ⟨"u1", ""⟩
        [("user:u1", 1, some 7200), ("session:u1", 2, none), ("user:u2", 3, none)]).2.2
      = [("user:u2", 3, none)])
    ∧ (CacheService.get (redisOps Nat) initMetrics "user" "u1"
        ((CacheService.invalidate (redisOps Nat) initMetrics "userUpdated" ⟨"u1", ""⟩
          [("user:u1", 1, some 7200), ("session:u1", 2, none), ("user:u2", 3, none)]).2.2)).1
        = none := by
  have h := invalidate_userUpdated_spec (V := Nat) initMetrics initMetrics initMetrics "u1"
    [("user:u1", 1, some 7200), ("session:u1", 2, none), ("user:u2", 3, none)] (by decide)
  exact ⟨h.1.trans (by decide), h.2.1⟩

/-- C2 counterexample: with userId "x*" the generated pattern `user:x*`
contains a wildcard, so `invalidate` scan-deletes every key matching the
glob — here the unrelated key `user:xy` — rather than exactly the two
literal keys, refuting the claim for arbitrary userId strings. -/
theorem invalidate_userUpdated_counterexample :
    ¬ ((CacheService.invalidate (redisOps Nat) initMetrics "userUpdated" ⟨"x*", ""⟩
          [("user:xy", 5, some 60)]).2.2
        = eraseKey ("session:" ++ "x*") (eraseKey ("user:" ++ "x*")
            [("user:xy", 5, some 60)])) := by
  decide

theorem getInvalidationPatterns_ne_nil (ev : String) (d : InvData) :
    getInvalidationPatterns ev d ≠ [] := by
  unfold getInvalidationPatterns
  split_ifs <;> simp

/-- C5: no cache-service operation propagates a store error: when the
underlying store call raises, `set` returns false, `get` returns null
(indistinguishable from the miss case, which also returns null), `delete`
returns the JS `false` result, and `invalidate` returns 0; each error
path bumps the `errors` counter, and `get` bumps `hits` on a non-null
store result and `misses` on a null one. -/
theorem cacheService_error_boundary {V σ : Type} (ops : StoreOps V σ)
    (stringify : V → String) (m : Metrics) (ty key ev : String) (d : InvData)
    (data : V) (customTTL : Option Nat) (s : σ) :
    (ops.sset (generateKey ty [key]) data
        (jsOrNat customTTL (getAdaptiveTTL stringify ty data)) s = .error () →
      CacheService.set ops stringify m ty key data customTTL s = (false, m.incErrors, s))
    ∧ (ops.sget (generateKey ty [key]) s = .error () →
      CacheService.get ops m ty key s = (none, m.incErrors, s))
    ∧ (∀ (v : V) (s' : σ), ops.sget (generateKey ty [key]) s = .ok (some v, s') →
      CacheService.get ops m ty key s = (some v, m.incHits, s'))
    ∧ (∀ s' : σ, ops.sget (generateKey ty [key]) s = .ok (none, s') →
      CacheService.get ops m ty key s = (none, m.incMisses, s'))
    ∧ (ops.sdel (generateKey ty [key]) s = .error () →
      CacheService.delete ops m ty key s = (.failed, m.incErrors, s))
    ∧ ((∀ (p : String) (t : σ), ops.sdel p t = .error ()) →
       (∀ (p : String) (t : σ), ops.sdelPattern p t = .error ()) →
      CacheService.invalidate ops m ev d s = (0, m.incErrors, s)) := by
  refine ⟨?_, ?_, ?_, ?_, ?_, ?_⟩
  · intro h
    simp [CacheService.set, h]
  · intro h
    simp [CacheService.get, h]
  · intro v s' h
    simp [CacheService.get, h]
  · intro s' h
    simp [CacheService.get, h]
  · intro h
    simp [CacheService.delete, h]
  · intro h1 h2
    rcases hp : getInvalidationPatterns ev d with _ | ⟨p, rest⟩
    · exact absurd hp (getInvalidationPatterns_ne_nil ev d)
    · by_cases hs : hasStar p = true <;>
        simp [CacheService.invalidate, hp, invalidateLoop, hs, h1, h2]

/-- Witness for C5: a store whose every call raises yields the neutral
results with `errors` bumped; the honest store yields hit/miss counting. -/
theorem cacheService_error_boundary_witness :
    CacheService.set failOps (fun _ => "") initMetrics "user" "k" 0 none () =
      (false, initMetrics.incErrors, ())
    ∧ CacheService.get failOps initMetrics "user" "k" () =
      (none, initMetrics.incErrors, ())
    ∧ CacheService.delete failOps initMetrics "user" "k" () =
      (.failed, initMetrics.incErrors, ())
    ∧ CacheService.invalidate failOps initMetrics "userUpdated" ⟨"u1", ""⟩ () =
      (0, initMetrics.incErrors, ())
    ∧ CacheService.get (redisOps Nat) initMetrics "user" "k" [("user:k", 5, none)] =
      (some 5, initMetrics.incHits, [("user:k", 5, none)])
    ∧ CacheService.get (redisOps Nat) initMetrics "user" "k" [] =
      (none, initMetrics.incMisses, []) := by
  refine ⟨(cacheService_error_boundary failOps (fun _ => "") initMetrics "user" "k" "userUpdated"
      ⟨"u1", ""⟩ 0 none ()).1 rfl,
    (cacheService_error_boundary failOps (fun _ => "") initMetrics "user" "k" "userUpdated"
      ⟨"u1", ""⟩ 0 none ()).2.1 rfl,
    (cacheService_error_boundary failOps (fun _ => "") initMetrics "user" "k" "userUpdated"
      ⟨"u1", ""⟩ 0 none ()).2.2.2.2.1 rfl,
    (cacheService_error_boundary failOps (fun _ => "") initMetrics "user" "k" "userUpdated"
      ⟨"u1", ""⟩ 0 none ()).2.2.2.2.2 (fun _ _ => rfl) (fun _ _ => rfl),
    (cacheService_error_boundary (redisOps Nat) (fun _ => "") initMetrics "user" "k"
      "userUpdated" ⟨"u1", ""⟩ 0 none [("user:k", 5, none)]).2.2.1 5 [("user:k", 5, none)]
      rfl,
    (cacheService_error_boundary (redisOps Nat) (fun _ => "") initMetrics "user" "k"
      "userUpdated" ⟨"u1", ""⟩ 0 none []).2.2.2.1 [] rfl⟩

/-- C6: an inbound message whose body is not parseable JSON produces
exactly one `error`-type reply to the sender, closes nothing, and leaves
the connection registered in both the connection map and the fan-out
index (the whole state is untouched). -/
theorem malformed_message_spec (uid : String) (now : Nat) (nowStr : String) (up : Nat)
    (s : WSState) (ws : Nat) :
    handleMessage uid none now nowStr up s = ([.errorReply], s, false)
    ∧ (∀ info : ConnInfo, wlookup ws s.connections = some info →
        wlookup ws (handleMessage uid none now nowStr up s).2.1.connections = some info)
    ∧ (∀ (pc : String) (conns : List Nat),
        alookup pc s.cloudPCConnections = some conns → ws ∈ conns →
        ∃ conns', alookup pc (handleMessage uid none now nowStr up s).2.1.cloudPCConnections
            = some conns' ∧ ws ∈ conns') := by
  refine ⟨rfl, ?_, ?_⟩
  · intro info hinfo
    simpa [handleMessage] using hinfo
  · intro pc conns hpc hmem
    exact ⟨conns, by simpa [handleMessage] using hpc, hmem⟩

/-- Witness for C6 on a registry with one established connection. -/
theorem malformed_message_spec_witness :
    handleMessage "u1" none 0 "T" 0 deadConnState = ([.errorReply], deadConnState, false)
    ∧ wlookup 1 (handleMessage "u1" none 0 "T" 0 deadConnState).2.1.connections
        = some ⟨"u1", "pc1", "s1", 0, false⟩
    ∧ ∃ conns', alookup "pc1"
          (handleMessage "u1" none 0 "T" 0 deadConnState).2.1.cloudPCConnections
        = some conns' ∧ 1 ∈ conns' := by
  refine ⟨(malformed_message_spec "u1" 0 "T" 0 deadConnState 1).1,
    (malformed_message_spec "u1" 0 "T" 0 deadConnState 1).2.1 _ (by decide),
    (malformed_message_spec "u1" 0 "T" 0 deadConnState 1).2.2 "pc1" [1] (by decide)
      (by decide)⟩

theorem alookup_fanAdd_self (pc : String) (ws : Nat) (f : List (String × List Nat)) :
    ∃ conns, alookup pc (fanAdd pc ws f) = some conns ∧ ws ∈ conns := by
  unfold fanAdd
  rcases alookup pc f with _ | conns
  · exact ⟨[ws], alookup_aset_self pc [ws] f, by simp⟩
  · by_cases h : ws ∈ conns
    · exact ⟨conns, by simpa [h] using alookup_aset_self pc conns f, h⟩
    · exact ⟨conns ++ [ws], by simpa [h] using alookup_aset_self pc (conns ++ [ws]) f,
        by simp⟩

/-- C7: the handshake establishes a connection only when the URL carries
a (non-empty) token and cloud-PC id and the token verifies against the
signing secret; any failure closes with policy code 1008 without touching
any index; on success the connection record is in the connection map, the
socket in the fan-out set, and a fresh terminal session is indexed. -/
theorem handshake_gate (verify : String → Option String) (ws : Nat)
    (token cloudPCId sessionIdParam : Option String) (freshId : String) (now : Nat)
    (s : WSState) :
    (token = none ∨ token = some "" ∨ cloudPCId = none ∨ cloudPCId = some "" →
      handleConnection verify ws token cloudPCId sessionIdParam freshId now s
        = (.closed 1008, s, []))
    ∧ (∀ t pc, token = some t → cloudPCId = some pc → t ≠ "" → pc ≠ "" →
        verify t = none →
        handleConnection verify ws token cloudPCId sessionIdParam freshId now s
          = (.closed 1008, s, []))
    ∧ (∀ t pc uid, token = some t → cloudPCId = some pc → t ≠ "" → pc ≠ "" →
        verify t = some uid →
        (handleConnection verify ws token cloudPCId sessionIdParam freshId now s).1
            = .established
        ∧ (∀ sid, sid = (match sessionIdParam with
              | some sp => if sp == "" then freshId else sp
              | none => freshId) →
            wlookup ws (handleConnection verify ws token cloudPCId sessionIdParam freshId
                now s).2.1.connections = some ⟨uid, pc, sid, now, true⟩
            ∧ (∃ conns, alookup pc (handleConnection verify ws token cloudPCId
                  sessionIdParam freshId now s).2.1.cloudPCConnections
                = some conns ∧ ws ∈ conns)
            ∧ alookup sid (handleConnection verify ws token cloudPCId sessionIdParam
                freshId now s).2.1.terminalSessions
              = some ⟨sid, pc, uid, now, true, [], [], none⟩)) := by
  refine ⟨?_, ?_, ?_⟩
  · intro hcase
    rcases token with _ | t
    · rcases cloudPCId with _ | pc <;> simp [handleConnection]
    · rcases cloudPCId with _ | pc
      · simp [handleConnection]
      · rcases hcase with h | h | h | h <;> simp_all [handleConnection]
  · rintro t pc rfl rfl ht hpc hv
    simp [handleConnection, ht, hpc, hv]
  · rintro t pc uid rfl rfl ht hpc hv
    refine ⟨by simp [handleConnection, ht, hpc, hv, initializeTerminalSession], ?_⟩
    rintro sid rfl
    refine ⟨?_, ?_, ?_⟩
    · simp [handleConnection, ht, hpc, hv, initializeTerminalSession, wlookup_wset_self]
    · simpa [handleConnection, ht, hpc, hv, initializeTerminalSession]
        using alookup_fanAdd_self pc ws s.cloudPCConnections
    · simp [handleConnection, ht, hpc, hv, initializeTerminalSession, alookup_aset_self]

/-- Witness for C7: a missing token, a bad token, and a good token, on
the empty registry. -/
theorem handshake_gate_witness :
    handleConnection (fun t => if t = "good" then some "u1" else none) 7 none (some "pc1")
        none "sid1" 0 initRegistry = (.closed 1008, initRegistry, [])
    ∧ handleConnection (fun t => if t = "good" then some "u1" else none) 7 (some "bad")
        (some "pc1") none "sid1" 0 initRegistry = (.closed 1008, initRegistry, [])
    ∧ (handleConnection (fun t => if t = "good" then some "u1" else none) 7 (some "good")
        (some "pc1") none "sid1" 0 initRegistry).1 = .established
    ∧ wlookup 7 (handleConnection (fun t => if t = "good" then some "u1" else none) 7
        (some "good") (some "pc1") none "sid1" 0 initRegistry).2.1.connections
      = some ⟨"u1", "pc1", "sid1", 0, true⟩ := by
  have h := handshake_gate (fun t => if t = "good" then some "u1" else none) 7 (some "good")
    (some "pc1") none "sid1" 0 initRegistry
  refine ⟨(handshake_gate (fun t => if t = "good" then some "u1" else none) 7 none
      (some "pc1") none "sid1" 0 initRegistry).1 (Or.inl rfl),
    (handshake_gate (fun t => if t = "good" then some "u1" else none) 7 (some "bad")
      (some "pc1") none "sid1" 0 initRegistry).2.1 "bad" "pc1" rfl rfl (by decide)
      (by decide) (by decide),
    (h.2.2 "good" "pc1" "u1" rfl rfl (by decide) (by decide) (by decide)).1,
    ((h.2.2 "good" "pc1" "u1" rfl rfl (by decide) (by decide) (by decide)).2 "sid1"
      rfl).1⟩

set_option maxRecDepth 200000 in
/-- C4: the terminal history is capped: on a session whose command and
output histories are in step and hold at most 100 entries, one
`terminal_input` leaves them in step and at most 100 long (so the bound
holds after every message of any sequence, the fresh session starting
empty); and concretely, 105 sequential `terminal_input` messages with
commands "1" .. "105" leave exactly the 100 commands "6" .. "105" in both
histories — the oldest 5 evicted in FIFO order. -/
theorem terminal_history_capped (uid command sessionId : String) (now : Nat)
    (nowStr : String) (up : Nat) (s : WSState) :
    (∀ sess : TermSession, alookup sessionId s.terminalSessions = some sess →
      sess.commands.length = sess.output.length → sess.commands.length ≤ 100 →
      ∀ sess' : TermSession,
        alookup sessionId
          (handleTerminalInput uid command sessionId now nowStr up s).2.terminalSessions
          = some sess' →
        sess'.commands.length = sess'.output.length ∧ sess'.commands.length ≤ 100)
    ∧ ((alookup "s1" run105.terminalSessions).map
          (fun sess => sess.commands.map (fun c => c.command))
        = some ((List.range 100).map (fun i => toString (i + 6))))
    ∧ ((alookup "s1" run105.terminalSessions).map
          (fun sess => sess.output.map (fun o => o.command))
        = some ((List.range 100).map (fun i => toString (i + 6)))) := by
  refine ⟨?_, by decide, by decide⟩
  intro sess hs heq hle sess' hs'
  simp only [handleTerminalInput, hs, alookup_aset_self, Option.some.injEq] at hs'
  subst hs'
  split_ifs with hc
  · simp only [List.length_tail, List.length_append, List.length_cons,
      List.length_nil] at hc ⊢
    omega
  · simp only [List.length_append, List.length_cons, List.length_nil] at hc ⊢
    omega

/-- Witness for C4's capped-history step on a session at the cap. -/
theorem terminal_history_capped_witness :
    ∀ sess' : TermSession,
      alookup "s1" (handleTerminalInput "u1" "pwd" "s1" 7 "T" 0
          { connections := [], cloudPCConnections := [],
            terminalSessions := [("s1", ⟨"s1", "pc1", "u1", 0, true,
              List.replicate 100 ⟨"x", 0, "u1"⟩,
              List.replicate 100 ⟨"x", .str "", 0⟩, none⟩)] }).2.terminalSessions
        = some sess' →
      sess'.commands.length = sess'.output.length ∧ sess'.commands.length ≤ 100 := by
  intro sess' h
  exact (terminal_history_capped "u1" "pwd" "s1" 7 "T" 0 _).1
    ⟨"s1", "pc1", "u1", 0, true, List.replicate 100 ⟨"x", 0, "u1"⟩,
      List.replicate 100 ⟨"x", .str "", 0⟩, none⟩ (by decide) (by simp) (by simp)
    sess' h

/-- C1 (divergence witness): firing the heartbeat on a registry whose one
connection has a cleared liveness flag terminates it and removes it from
the connection map, but the socket is still recorded in the cloudPC
fan-out index afterwards: the sweep deletes the connection-map entry
before the terminate-induced close event runs, so `handleDisconnect`
returns early and never prunes the fan-out set. -/
theorem heartbeat_leaves_fanout_entry :
    (startHeartbeatTick deadConnState).connections = []
    ∧ alookup "pc1" (startHeartbeatTick deadConnState).cloudPCConnections = some [1] := by
  decide

theorem mem_aset {β : Type} (k : String) (v : β) (l : List (String × β)) (e : String × β)
    (h : e ∈ aset k v l) : e = (k, v) ∨ e ∈ l := by
  induction l with
  | nil =>
    simp [aset] at h
    exact Or.inl h
  | cons e' rest ih =>
    obtain ⟨k', v'⟩ := e'
    by_cases hk : k' = k
    · rw [aset, if_pos hk] at h
      rcases List.mem_cons.mp h with h1 | h1
      · exact Or.inl h1
      · exact Or.inr (List.mem_cons_of_mem _ h1)
    · rw [aset, if_neg hk] at h
      rcases List.mem_cons.mp h with h1 | h1
      · exact Or.inr (h1 ▸ List.mem_cons_self _ _)
      · rcases ih h1 with h2 | h2
        · exact Or.inl h2
        · exact Or.inr (List.mem_cons_of_mem _ h2)

theorem mem_aerase {β : Type} (k : String) (l : List (String × β)) (e : String × β)
    (h : e ∈ aerase k l) : e ∈ l := by
  induction l with
  | nil => simp [aerase] at h
  | cons e' rest ih =>
    obtain ⟨k', v'⟩ := e'
    by_cases hk : k' = k
    · rw [aerase, if_pos hk] at h
      exact List.mem_cons_of_mem _ (ih h)
    · rw [aerase, if_neg hk] at h
      rcases List.mem_cons.mp h with h1 | h1
      · exact h1 ▸ List.mem_cons_self _ _
      · exact List.mem_cons_of_mem _ (ih h1)

theorem fanAdd_nonempty (pc : String) (ws : Nat) (f : List (String × List Nat))
    (h : ∀ e ∈ f, e.2 ≠ []) : ∀ e ∈ fanAdd pc ws f, e.2 ≠ [] := by
  intro e he
  unfold fanAdd at he
  split at he
  · rcases mem_aset _ _ _ _ he with h1 | h1
    · subst h1
      simp
    · exact h e h1
  · next conns hf =>
    rcases mem_aset _ _ _ _ he with h1 | h1
    · subst h1
      by_cases hm : ws ∈ conns
      · simpa [hm] using List.ne_nil_of_mem hm
      · simp [hm]
    · exact h e h1

theorem handleDisconnect_nonempty (ws : Nat) (s : WSState)
    (h : ∀ e ∈ s.cloudPCConnections, e.2 ≠ []) :
    ∀ e ∈ (handleDisconnect ws s).cloudPCConnections, e.2 ≠ [] := by
  intro e he
  unfold handleDisconnect at he
  split at he
  · exact h e he
  · dsimp only at he
    split at he
    · exact h e he
    · next set0 hset =>
      split at he
      · exact h e (mem_aerase _ _ _ he)
      · next hne =>
        rcases mem_aset _ _ _ _ he with h1 | h1
        · subst h1
          intro hnil
          dsimp only at hnil
          exact hne (by rw [hnil]; rfl)
        · exact h e h1

theorem handleTerminalInput_fanout (uid command sessionId : String) (now : Nat)
    (nowStr : String) (up : Nat) (s : WSState) :
    (handleTerminalInput uid command sessionId now nowStr up s).2.cloudPCConnections
      = s.cloudPCConnections := by
  unfold handleTerminalInput
  split <;> rfl

theorem handleTerminalResize_fanout (cols rows : Nat) (sessionId : String) (s : WSState) :
    (handleTerminalResize cols rows sessionId s).2.cloudPCConnections
      = s.cloudPCConnections := by
  unfold handleTerminalResize
  split <;> rfl

theorem handleMessage_fanout (uid : String) (raw : Option Msg) (now : Nat)
    (nowStr : String) (up : Nat) (s : WSState) :
    (handleMessage uid raw now nowStr up s).2.1.cloudPCConnections
      = s.cloudPCConnections := by
  rcases raw with _ | m
  · rfl
  · unfold handleMessage
    dsimp only
    split_ifs <;>
      first
        | rfl
        | exact handleTerminalInput_fanout uid m.command m.sessionId now nowStr up s
        | exact handleTerminalResize_fanout m.cols m.rows m.sessionId s

theorem handleConnection_fanout (verify : String → Option String) (ws : Nat)
    (token pcid sidp : Option String) (freshId : String) (now : Nat) (s : WSState) :
    (handleConnection verify ws token pcid sidp freshId now s).2.1.cloudPCConnections
      = s.cloudPCConnections
    ∨ ∃ p, (handleConnection verify ws token pcid sidp freshId now s).2.1.cloudPCConnections
      = fanAdd p ws s.cloudPCConnections := by
  unfold handleConnection initializeTerminalSession
  rcases token with _ | t <;> rcases pcid with _ | p
  · exact Or.inl rfl
  · exact Or.inl rfl
  · exact Or.inl rfl
  · dsimp only
    split_ifs with hb
    · exact Or.inl rfl
    · cases hv : verify t with
      | none => exact Or.inl rfl
      | some uid => exact Or.inr ⟨p, rfl⟩

theorem foldl_preserve {α β : Type} (P : α → Prop) (f : α → β → α)
    (hf : ∀ a b, P a → P (f a b)) :
    ∀ (l : List β) (a : α), P a → P (l.foldl f a) := by
  intro l
  induction l with
  | nil => intro a h; exact h
  | cons b l ih => intro a h; exact ih (f a b) (hf a b h)

theorem startHeartbeatTick_nonempty (s : WSState)
    (h : ∀ e ∈ s.cloudPCConnections, e.2 ≠ []) :
    ∀ e ∈ (startHeartbeatTick s).cloudPCConnections, e.2 ≠ [] := by
  unfold startHeartbeatTick
  refine foldl_preserve (fun st => ∀ e ∈ st.cloudPCConnections, e.2 ≠ [])
    (fun st w => handleDisconnect w st)
    (fun a b ha => handleDisconnect_nonempty b a ha) _ _ ?_
  exact h

theorem applyStep_nonempty (verify : String → Option String) (s : WSState) (st : RegStep)
    (h : ∀ e ∈ s.cloudPCConnections, e.2 ≠ []) :
    ∀ e ∈ (applyStep verify s st).cloudPCConnections, e.2 ≠ [] := by
  cases st with
  | connect ws token pcid sidp fresh now =>
    rcases handleConnection_fanout verify ws token pcid sidp fresh now s with hc | ⟨p, hc⟩
    · simp only [applyStep]
      rw [hc]
      exact h
    · simp only [applyStep]
      rw [hc]
      exact fanAdd_nonempty p ws _ h
  | message uid raw now nowStr up =>
    simp only [applyStep]
    rw [handleMessage_fanout]
    exact h
  | disconnect ws => exact handleDisconnect_nonempty ws s h
  | heartbeat => exact startHeartbeatTick_nonempty s h

/-- C10: in every state reachable from the empty registry by any sequence
of handshakes, messages, disconnects and heartbeat ticks, the fan-out
index never maps a cloud-PC id to an empty socket set: registration
inserts the socket into a fresh or existing set, and deregistration drops
the map entry when it removes the last socket. -/
theorem fanout_never_empty (verify : String → Option String) (steps : List RegStep) :
    fanoutNonempty (runRegistry verify steps) = true := by
  have hinv : ∀ e ∈ (runRegistry verify steps).cloudPCConnections, e.2 ≠ [] := by
    unfold runRegistry
    refine foldl_preserve (fun st => ∀ e ∈ st.cloudPCConnections, e.2 ≠ [])
      (applyStep verify) (fun a b ha => applyStep_nonempty verify a b ha) steps
      initRegistry ?_
    intro e he
    simp [initRegistry] at he
  rw [fanoutNonempty, List.all_eq_true]
  intro e he
  have := hinv e he
  cases hval : e.2 with
  | nil => exact absurd hval this
  | cons x xs => simp
